import Mathlib

/-!
Shallow embedding of the OneWire bus-master contract of this repository:
the blocking trait (embedded-hal/src/onewire.rs), the poll-driven trait
(embedded-hal-nb/src/onewire.rs), the async trait
(embedded-hal-async/src/onewire.rs), the legacy OneMaster trait and its
derived blocking adapters (src/onewire.rs, src/blocking/onewire.rs), and
the digital v1-to-v2 compatibility shims (src/digital/v2_compat.rs).
Machine integers are modelled as Nat (u8 values stay below 256, u64
values below 2^64); Rust Result is modelled by RustResult, nb::Result by
Nb, mutation of &mut self by explicit state passing.
-/

namespace OneWireHAL

/-- Rust Result with the value type first, as Result of T and E. -/
inductive RustResult (α ε : Type) : Type where
  | ok (a : α)
  | err (e : ε)
deriving DecidableEq, Repr

/-- nb::Result of T and E: completion, nb::Error::WouldBlock, or nb::Error::Other(E). -/
inductive Nb (ε α : Type) : Type where
  | ok (a : α)
  | wouldBlock
  | err (e : ε)
deriving DecidableEq, Repr

/-- RomId, the 64-bit address mode type: pub type RomId = u64. -/
abbrev RomId := Nat

/-- Command, the OneWire command enum of embedded-hal/src/onewire.rs and
src/onewire.rs: SkipRom, ConvertTemperature, ReadScratchPad. -/
inductive Command : Type where
  | SkipRom
  | ConvertTemperature
  | ReadScratchPad
deriving DecidableEq, Repr

/-- From u8 for Command: 0xcc, 0x44, 0xbe map to the three variants and
every other byte falls to the default arm, SkipRom. -/
def Command.fromU8 (b : Nat) : Command :=
  if b = 0xcc then Command.SkipRom
  else if b = 0x44 then Command.ConvertTemperature
  else if b = 0xbe then Command.ReadScratchPad
  else Command.SkipRom

/-- Into u8 for Command: the wire byte of each variant. -/
def Command.intoU8 : Command → Nat
  | Command.SkipRom => 0xcc
  | Command.ConvertTemperature => 0x44
  | Command.ReadScratchPad => 0xbe

/-- ErrorKind of embedded-hal/src/onewire.rs: NoDevicePresence,
RomNotFound(RomId), Other. -/
inductive ErrorKind : Type where
  | NoDevicePresence
  | RomNotFound (rid : RomId)
  | Other
deriving DecidableEq, Repr

/-- The Error impl for ErrorKind returns *self: the identity. -/
def ErrorKind.kind (e : ErrorKind) : ErrorKind := e

/-- core::convert::Infallible, the error type with no values. -/
abbrev Infallible := Empty

/-- The Error impl for Infallible: fn kind matches on *self with no arms. -/
def Infallible.kind (e : Infallible) : ErrorKind := nomatch e

/-- One transactional Onewire operation: Search, Read or Write, buffers
modelled as byte lists. -/
inductive Operation : Type where
  | Search (rid : RomId)
  | Read (buffer : List Nat)
  | Write (buffer : List Nat)
deriving DecidableEq, Repr

end OneWireHAL

namespace OneWireHAL

/-! Operation signatures of the three suspension disciplines, transcribed
method by method from the three trait declarations. Only the argument
lists after &mut self are recorded; within one trait every method wraps
its unit result in that trait's completion style. -/

/-- The method names occurring across the three OneWire traits. -/
inductive OpName : Type where
  | bus_reset
  | write
  | read
  | write_iter
  | write_read
  | write_iter_read
  | transaction
  | transaction_iter
deriving DecidableEq, Repr

/-- Argument types occurring in the three OneWire traits. -/
inductive ArgTy : Type where
  | romId
  | command
  | bytesIn
  | bytesOut
  | byteIter
  | opsSlice
  | opsIter
deriving DecidableEq, Repr

/-- One method signature: its name and its argument types after &mut self. -/
structure OpSig : Type where
  name : OpName
  args : List ArgTy
deriving DecidableEq, Repr

/-- The blocking OneWire trait of embedded-hal/src/onewire.rs, in
declaration order; every method returns Result of unit and Self::Error. -/
def blockingOneWireOps : List OpSig :=
  [ OpSig.mk OpName.bus_reset [],
    OpSig.mk OpName.write [ArgTy.romId, ArgTy.command],
    OpSig.mk OpName.read [ArgTy.romId, ArgTy.bytesOut],
    OpSig.mk OpName.write_iter [ArgTy.romId, ArgTy.byteIter],
    OpSig.mk OpName.write_read [ArgTy.romId, ArgTy.bytesIn, ArgTy.bytesOut],
    OpSig.mk OpName.write_iter_read [ArgTy.romId, ArgTy.byteIter, ArgTy.bytesOut],
    OpSig.mk OpName.transaction [ArgTy.opsSlice],
    OpSig.mk OpName.transaction_iter [ArgTy.opsIter] ]

/-- The poll-driven OneWire trait of embedded-hal-nb/src/onewire.rs, in
declaration order; every method returns nb::Result of unit and Self::Error. -/
def nbOneWireOps : List OpSig :=
  [ OpSig.mk OpName.bus_reset [],
    OpSig.mk OpName.write [ArgTy.romId, ArgTy.command],
    OpSig.mk OpName.read [ArgTy.romId, ArgTy.bytesOut],
    OpSig.mk OpName.write_iter [ArgTy.romId, ArgTy.byteIter],
    OpSig.mk OpName.write_read [ArgTy.romId, ArgTy.bytesIn, ArgTy.bytesOut],
    OpSig.mk OpName.write_iter_read [ArgTy.romId, ArgTy.byteIter, ArgTy.bytesOut],
    OpSig.mk OpName.transaction [ArgTy.opsSlice],
    OpSig.mk OpName.transaction_iter [ArgTy.opsIter] ]

/-- The async OneWire trait of embedded-hal-async/src/onewire.rs, in
declaration order; every method is async and returns Result of unit and
Self::Error. Its write method takes a byte slice, not a Command. -/
def asyncOneWireOps : List OpSig :=
  [ OpSig.mk OpName.bus_reset [],
    OpSig.mk OpName.read [ArgTy.romId, ArgTy.bytesOut],
    OpSig.mk OpName.write [ArgTy.romId, ArgTy.bytesIn],
    OpSig.mk OpName.write_read [ArgTy.romId, ArgTy.bytesIn, ArgTy.bytesOut],
    OpSig.mk OpName.transaction [ArgTy.opsSlice] ]

end OneWireHAL

namespace OneWireHAL

/-! The legacy OneMaster trait of src/onewire.rs and the blocking adapters
of src/blocking/onewire.rs. A backend is a record of state-transition
functions over an abstract backend state sigma; a method taking &mut self
becomes a function from the state to the new state paired with its
nb::Result. The read buffer is passed in and the filled buffer is the ok
payload. -/

/-- OneMaster of src/onewire.rs: bus_reset, write, read, each returning
nb::Result of unit (the filled buffer standing for the mutated read
buffer) and Self::Error. -/
structure OneMaster (σ ε : Type) : Type where
  bus_reset : σ → σ × Nb ε Unit
  write : σ → RomId → Command → σ × Nb ε Unit
  read : σ → RomId → List Nat → σ × Nb ε (List Nat)

/-- The nb::block macro: loop re-invoking the step, continuing on
WouldBlock, returning Ok or Err otherwise; fuel bounds the loop, none
meaning the loop was still blocking when the fuel ran out. -/
def nbBlock {σ ε α : Type} (step : σ → σ × Nb ε α) : Nat → σ → Option (σ × RustResult α ε)
  | 0, _ => none
  | fuel + 1, s =>
    match step s with
    | (s1, Nb.ok a) => some (s1, RustResult.ok a)
    | (s1, Nb.err e) => some (s1, RustResult.err e)
    | (s1, Nb.wouldBlock) => nbBlock step fuel s1

/-- The single poll step that the read adapter of blocking/onewire.rs
re-invokes: self.read(rom_id, buffer). -/
def readStep {σ ε : Type} (M : OneMaster σ ε) (rid : RomId) (buffer : List Nat) :
    σ → σ × Nb ε (List Nat) :=
  fun st => M.read st rid buffer

/-- The single poll step that the write adapter of blocking/onewire.rs
re-invokes: self.write(rom_id, command.clone()). -/
def writeStep {σ ε : Type} (M : OneMaster σ ε) (rid : RomId) (cmd : Command) :
    σ → σ × Nb ε Unit :=
  fun st => M.write st rid cmd

/-- The derived blocking read of the read::Default impl in
src/blocking/onewire.rs: nb::block!(self.read(rom_id, buffer)). -/
def blockingRead {σ ε : Type} (M : OneMaster σ ε) (fuel : Nat) (s : σ)
    (rid : RomId) (buffer : List Nat) : Option (σ × RustResult (List Nat) ε) :=
  nbBlock (readStep M rid buffer) fuel s

/-- The derived blocking write of the write::Default impl in
src/blocking/onewire.rs: nb::block!(self.write(rom_id, command.clone()))
followed by Ok(()). -/
def blockingWrite {σ ε : Type} (M : OneMaster σ ε) (fuel : Nat) (s : σ)
    (rid : RomId) (cmd : Command) : Option (σ × RustResult Unit ε) :=
  nbBlock (writeStep M rid cmd) fuel s

/-- The backend state reached after invoking the poll step n times. -/
def iterState {σ ε α : Type} (step : σ → σ × Nb ε α) (s : σ) : Nat → σ
  | 0 => s
  | n + 1 => (step (iterState step s n)).1

/-- The completed outcome of one nb result: the poll is complete exactly
when the result is not WouldBlock. -/
def completes {ε α : Type} : Nb ε α → Option (RustResult α ε)
  | Nb.ok a => some (RustResult.ok a)
  | Nb.err e => some (RustResult.err e)
  | Nb.wouldBlock => none

/-- A concrete poll-driven backend for evaluation: its state counts the
polls still to report WouldBlock before read and write complete; a
completed read fills every buffer byte with 7. -/
def demoMaster : OneMaster Nat Unit where
  bus_reset := fun s => (s, Nb.ok ())
  write := fun s _ _ => if s = 0 then (s, Nb.ok ()) else (s - 1, Nb.wouldBlock)
  read := fun s _ buffer =>
    if s = 0 then (s, Nb.ok (buffer.map fun _ => 7)) else (s - 1, Nb.wouldBlock)

end OneWireHAL

namespace OneWireHAL

/-! The blocking OneWire trait as a record of state-transition functions,
and the forwarding impl of OneWire for an exclusive borrow of T
(embedded-hal/src/onewire.rs, impl of OneWire for &mut T), each method
body being T::method(self, args). Iterator arguments become byte lists
drained in order; transaction returns the mutated operations list. -/

/-- A blocking OneWire implementation over backend state sigma with error
type epsilon: one field per trait method. -/
structure OneWireImpl (σ ε : Type) : Type where
  bus_reset : σ → σ × RustResult Unit ε
  write : σ → RomId → Command → σ × RustResult Unit ε
  read : σ → RomId → List Nat → σ × RustResult (List Nat) ε
  write_iter : σ → RomId → List Nat → σ × RustResult Unit ε
  write_read : σ → RomId → List Nat → List Nat → σ × RustResult (List Nat) ε
  write_iter_read : σ → RomId → List Nat → List Nat → σ × RustResult (List Nat) ε
  transaction : σ → List Operation → σ × RustResult (List Operation) ε
  transaction_iter : σ → List Operation → σ × RustResult Unit ε

/-- The impl of OneWire for an exclusive borrow: every method forwards
unchanged to the borrowed target. -/
def refImpl {σ ε : Type} (M : OneWireImpl σ ε) : OneWireImpl σ ε where
  bus_reset := fun s => M.bus_reset s
  write := fun s rid cmd => M.write s rid cmd
  read := fun s rid buffer => M.read s rid buffer
  write_iter := fun s rid bytes => M.write_iter s rid bytes
  write_read := fun s rid bytes buffer => M.write_read s rid bytes buffer
  write_iter_read := fun s rid bytes buffer => M.write_iter_read s rid bytes buffer
  transaction := fun s ops => M.transaction s ops
  transaction_iter := fun s ops => M.transaction_iter s ops

/-- The ErrorType association of embedded-hal/src/onewire.rs: a trait
instance is just the choice of an error type. -/
structure ErrorTypeInst : Type 1 where
  Error : Type

/-- The impl of ErrorType for an exclusive borrow of T: type Error =
T::Error. -/
def refErrorType (et : ErrorTypeInst) : ErrorTypeInst where
  Error := et.Error

end OneWireHAL

namespace OneWireHAL

/-! The digital pin traits and the v2 compatibility shims of
src/digital/v2_compat.rs. A v1 output pin mutates its state infallibly; a
v1 input or stateful-output pin reads a Bool. The v2 shims wrap each v1
call in Ok, with the v2 error type modelled as Unit (the source uses the
unit type until the never type is stabilized). -/

/-- v1::OutputPin: infallible set_low and set_high. -/
structure OutputPinV1 (σ : Type) : Type where
  set_low : σ → σ
  set_high : σ → σ

/-- v1::InputPin: infallible is_low and is_high. -/
structure InputPinV1 (σ : Type) : Type where
  is_low : σ → Bool
  is_high : σ → Bool

/-- v1::StatefulOutputPin: infallible is_set_low and is_set_high. -/
structure StatefulOutputPinV1 (σ : Type) : Type where
  is_set_low : σ → Bool
  is_set_high : σ → Bool

/-- The derived v2 set_low: Ok(self.set_low()). -/
def v2_set_low {σ : Type} (p : OutputPinV1 σ) (s : σ) : σ × RustResult Unit Unit :=
  (p.set_low s, RustResult.ok ())

/-- The derived v2 set_high: Ok(self.set_high()). -/
def v2_set_high {σ : Type} (p : OutputPinV1 σ) (s : σ) : σ × RustResult Unit Unit :=
  (p.set_high s, RustResult.ok ())

/-- The derived v2 is_low: Ok(self.is_low()). -/
def v2_is_low {σ : Type} (p : InputPinV1 σ) (s : σ) : RustResult Bool Unit :=
  RustResult.ok (p.is_low s)

/-- The derived v2 is_high: Ok(self.is_high()). -/
def v2_is_high {σ : Type} (p : InputPinV1 σ) (s : σ) : RustResult Bool Unit :=
  RustResult.ok (p.is_high s)

/-- The derived v2 is_set_low: Ok(self.is_set_low()). -/
def v2_is_set_low {σ : Type} (p : StatefulOutputPinV1 σ) (s : σ) : RustResult Bool Unit :=
  RustResult.ok (p.is_set_low s)

/-- The derived v2 is_set_high: Ok(self.is_set_high()). -/
def v2_is_set_high {σ : Type} (p : StatefulOutputPinV1 σ) (s : σ) : RustResult Bool Unit :=
  RustResult.ok (p.is_set_high s)

end OneWireHAL

namespace OneWireHAL

/-- Invoking one poll step from the shifted start state reaches, after i
further polls, the state that i + 1 polls reach from the original state. -/
theorem iterState_shift {σ ε α : Type} (step : σ → σ × Nb ε α) (s : σ) :
    ∀ i : Nat, iterState step ((step s).1) i = iterState step s (i + 1)
  | 0 => rfl
  | i + 1 => by
    show (step (iterState step ((step s).1) i)).1 = (step (iterState step s (i + 1))).1
    rw [iterState_shift step s i]

/-- Core of the blocking adapters: if the poll step reports WouldBlock on
each of the first n invocations and completes with outcome r on invocation
n, then nb::block run with enough fuel returns exactly that outcome from
exactly the state the n + 1 invocations reach. -/
theorem nbBlock_of_poll {σ ε α : Type} (step : σ → σ × Nb ε α) :
    ∀ (n : Nat) (fuel : Nat) (s : σ) (r : RustResult α ε), n < fuel →
      (∀ i : Nat, i < n → (step (iterState step s i)).2 = Nb.wouldBlock) →
      completes (step (iterState step s n)).2 = some r →
      nbBlock step fuel s = some (iterState step s (n + 1), r) := by
  intro n
  induction n with
  | zero =>
    intro fuel s r hfuel hblocks hdone
    match fuel, hfuel with
    | fuel + 1, _ =>
      show nbBlock step (fuel + 1) s = some ((step s).1, r)
      have hs : completes (step s).2 = some r := hdone
      rcases he : step s with ⟨s1, o⟩
      rw [he] at hs
      cases o with
      | ok a =>
        simp only [completes] at hs
        cases hs
        simp [nbBlock, he]
      | wouldBlock => simp [completes] at hs
      | err e =>
        simp only [completes] at hs
        cases hs
        simp [nbBlock, he]
  | succ n ih =>
    intro fuel s r hfuel hblocks hdone
    match fuel, hfuel with
    | fuel + 1, hfuel =>
      have h0 : (step s).2 = Nb.wouldBlock := hblocks 0 (Nat.succ_pos n)
      rcases he : step s with ⟨s1, o⟩
      rw [he] at h0
      cases h0
      have hb1 : ∀ i : Nat, i < n → (step (iterState step s1 i)).2 = Nb.wouldBlock := by
        intro i hi
        have hs1 : s1 = (step s).1 := by rw [he]
        rw [hs1, iterState_shift step s i]
        exact hblocks (i + 1) (Nat.succ_lt_succ hi)
      have hd1 : completes (step (iterState step s1 n)).2 = some r := by
        have hs1 : s1 = (step s).1 := by rw [he]
        rw [hs1, iterState_shift step s n]
        exact hdone
      have hrec := ih fuel s1 r (Nat.lt_of_succ_lt_succ hfuel) hb1 hd1
      have hshift : iterState step s1 (n + 1) = iterState step s (n + 2) := by
        have hs1 : s1 = (step s).1 := by rw [he]
        rw [hs1, iterState_shift step s (n + 1)]
      show nbBlock step (fuel + 1) s = some (iterState step s (n + 2), r)
      rw [← hshift, ← hrec]
      simp [nbBlock, he]

end OneWireHAL

namespace OneWireHAL

/-- C1 counterexample: the claim fails as stated, since the blocking trait
declares write_iter but the async trait declares no operation of that name
at all, so the operation sets of the three disciplines are not identical. -/
theorem onewire_async_op_set_counterexample :
    ¬ (∀ s ∈ blockingOneWireOps, s ∈ nbOneWireOps ∧ s ∈ asyncOneWireOps) := by
  decide

/-- C1 (amended): the blocking and poll-driven OneWire traits declare
identical operation lists, names and argument types alike, differing only
in the completion-signalling return wrapper; the async trait declares only
bus_reset, read, write, write_read and transaction, each with the blocking
argument types except write, which takes a byte slice payload instead of a
single Command, and omits write_iter, write_iter_read and
transaction_iter. -/
theorem onewire_discipline_op_sets :
    blockingOneWireOps = nbOneWireOps ∧
    asyncOneWireOps.map OpSig.name =
      [OpName.bus_reset, OpName.read, OpName.write, OpName.write_read, OpName.transaction] ∧
    (∀ s ∈ asyncOneWireOps, s.name = OpName.write ∨ s ∈ blockingOneWireOps) ∧
    OpSig.mk OpName.write [ArgTy.romId, ArgTy.bytesIn] ∈ asyncOneWireOps ∧
    OpSig.mk OpName.write [ArgTy.romId, ArgTy.command] ∈ blockingOneWireOps ∧
    (∀ s ∈ asyncOneWireOps, s.name ≠ OpName.write_iter ∧
      s.name ≠ OpName.write_iter_read ∧ s.name ≠ OpName.transaction_iter) := by
  decide

set_option maxRecDepth 4000 in
/-- C2: decoding then encoding is the identity on the three defined wire
bytes 0xcc, 0x44 and 0xbe, with the fixed pairing SkipRom, ConvertTemperature
and ReadScratchPad; every other byte of the 256 decodes to SkipRom, and
decoding is total over all 256 byte values. -/
theorem command_byte_roundtrip :
    (Command.fromU8 0xcc = Command.SkipRom ∧
     Command.fromU8 0x44 = Command.ConvertTemperature ∧
     Command.fromU8 0xbe = Command.ReadScratchPad) ∧
    (Command.intoU8 (Command.fromU8 0xcc) = 0xcc ∧
     Command.intoU8 (Command.fromU8 0x44) = 0x44 ∧
     Command.intoU8 (Command.fromU8 0xbe) = 0xbe) ∧
    (∀ b : Fin 256, b.val ≠ 0xcc → b.val ≠ 0x44 → b.val ≠ 0xbe →
      Command.fromU8 b.val = Command.SkipRom) ∧
    (∀ c : Command, Command.fromU8 (Command.intoU8 c) = c) := by
  refine ⟨⟨rfl, rfl, rfl⟩, ⟨rfl, rfl, rfl⟩, ?_, ?_⟩
  · decide
  · intro c; cases c <;> rfl

end OneWireHAL

namespace OneWireHAL

/-- C3: for any poll-driven OneMaster backend, the derived blocking read
and write adapters (the read::Default and write::Default impls) return
exactly the outcome of re-invoking the corresponding nb operation until it
returns something other than WouldBlock: if on one trace the nb read
reports WouldBlock nr times and then completes with rr, and the nb write
reports WouldBlock nw times and then completes with rw, the blocking read
yields rr from the state the nr + 1 read polls reach, and the blocking
write yields rw from the state the nw + 1 write polls reach, byte for
byte and state for state. -/
theorem blocking_refines_nb_poll {σ ε : Type} (M : OneMaster σ ε) (fuel : Nat)
    (s : σ) (rid : RomId) (buffer : List Nat) (cmd : Command) (nr nw : Nat)
    (rr : RustResult (List Nat) ε) (rw : RustResult Unit ε)
    (hnr : nr < fuel) (hnw : nw < fuel)
    (hrb : ∀ i : Nat, i < nr →
      (readStep M rid buffer (iterState (readStep M rid buffer) s i)).2 = Nb.wouldBlock)
    (hrd : completes (readStep M rid buffer (iterState (readStep M rid buffer) s nr)).2 = some rr)
    (hwb : ∀ i : Nat, i < nw →
      (writeStep M rid cmd (iterState (writeStep M rid cmd) s i)).2 = Nb.wouldBlock)
    (hwd : completes (writeStep M rid cmd (iterState (writeStep M rid cmd) s nw)).2 = some rw) :
    blockingRead M fuel s rid buffer = some (iterState (readStep M rid buffer) s (nr + 1), rr) ∧
    blockingWrite M fuel s rid cmd = some (iterState (writeStep M rid cmd) s (nw + 1), rw) :=
  ⟨nbBlock_of_poll (readStep M rid buffer) nr fuel s rr hnr hrb hrd,
   nbBlock_of_poll (writeStep M rid cmd) nw fuel s rw hnw hwb hwd⟩

/-- C3 witness: on the concrete backend demoMaster started at state 3, the
nb read and write block three times then complete, and the blocking
adapters with fuel 4 return exactly those completions and final states. -/
theorem blocking_refines_nb_poll_witness :
    blockingRead demoMaster 4 3 5 [0, 0] =
      some (iterState (readStep demoMaster 5 [0, 0]) 3 (3 + 1), RustResult.ok [7, 7]) ∧
    blockingWrite demoMaster 4 3 5 Command.SkipRom =
      some (iterState (writeStep demoMaster 5 Command.SkipRom) 3 (3 + 1), RustResult.ok ()) :=
  blocking_refines_nb_poll demoMaster 4 3 5 [0, 0] Command.SkipRom 3 3
    (RustResult.ok [7, 7]) (RustResult.ok ())
    (by decide) (by decide) (by decide) (by decide) (by decide) (by decide)

/-- C4: the impl of the blocking OneWire trait for an exclusive borrow is
a pure pass-through: each of the eight contract operations invoked through
the borrow returns the identical result and identical end-state as the
operation invoked directly on the underlying implementation, at every
state and every argument. -/
theorem mut_ref_forwarding_identity {σ ε : Type} (M : OneWireImpl σ ε) (s : σ)
    (rid : RomId) (cmd : Command) (bytes buffer : List Nat) (ops : List Operation) :
    (refImpl M).bus_reset s = M.bus_reset s ∧
    (refImpl M).write s rid cmd = M.write s rid cmd ∧
    (refImpl M).read s rid buffer = M.read s rid buffer ∧
    (refImpl M).write_iter s rid bytes = M.write_iter s rid bytes ∧
    (refImpl M).write_read s rid bytes buffer = M.write_read s rid bytes buffer ∧
    (refImpl M).write_iter_read s rid bytes buffer = M.write_iter_read s rid bytes buffer ∧
    (refImpl M).transaction s ops = M.transaction s ops ∧
    (refImpl M).transaction_iter s ops = M.transaction_iter s ops :=
  ⟨rfl, rfl, rfl, rfl, rfl, rfl, rfl, rfl⟩

/-- C5: the Infallible error type has no values, so its kind method is
unreachable for every possible input (vacuously it returns every kind at
once), and the error branch of any Result over Infallible is provably
never taken: every such value is an ok. -/
theorem infallible_error_unreachable :
    (∀ e : Infallible, False) ∧
    (∀ e : Infallible, Infallible.kind e = ErrorKind.Other ∧
      Infallible.kind e = ErrorKind.NoDevicePresence) ∧
    (∀ α : Type, ∀ r : RustResult α Infallible, ∃ a : α, r = RustResult.ok a) := by
  refine ⟨fun e => e.elim, fun e => e.elim, fun α r => ?_⟩
  cases r with
  | ok a => exact ⟨a, rfl⟩
  | err e => exact e.elim

/-- C6: the ErrorKind variants are pairwise distinguishable and the RomId
payload of RomNotFound is recoverable: NoDevicePresence never equals
RomNotFound of any RomId, neither equals Other, and RomNotFound is
injective in its RomId. -/
theorem errorkind_variants_distinguishable :
    (∀ r : RomId, ErrorKind.NoDevicePresence ≠ ErrorKind.RomNotFound r) ∧
    (∀ r : RomId, ErrorKind.RomNotFound r ≠ ErrorKind.Other) ∧
    ErrorKind.NoDevicePresence ≠ ErrorKind.Other ∧
    (∀ r1 r2 : RomId, ErrorKind.RomNotFound r1 = ErrorKind.RomNotFound r2 → r1 = r2) := by
  refine ⟨fun r h => ?_, fun r h => ?_, fun h => ?_, fun r1 r2 h => ?_⟩
  · exact ErrorKind.noConfusion h
  · exact ErrorKind.noConfusion h
  · exact ErrorKind.noConfusion h
  · injection h

/-- C7: the v2 compatibility shims always succeed with exactly the v1
behaviour: the derived fallible set_low and set_high return ok of unit and
perform the same state change as the infallible v1 call, and the derived
fallible input and stateful-output reads return ok of the v1 reading. -/
theorem v2_compat_always_ok {σ : Type} (p : OutputPinV1 σ) (q : InputPinV1 σ)
    (t : StatefulOutputPinV1 σ) (s : σ) :
    ((v2_set_low p s).2 = RustResult.ok () ∧ (v2_set_low p s).1 = p.set_low s) ∧
    ((v2_set_high p s).2 = RustResult.ok () ∧ (v2_set_high p s).1 = p.set_high s) ∧
    v2_is_low q s = RustResult.ok (q.is_low s) ∧
    v2_is_high q s = RustResult.ok (q.is_high s) ∧
    v2_is_set_low t s = RustResult.ok (t.is_set_low s) ∧
    v2_is_set_high t s = RustResult.ok (t.is_set_high s) :=
  ⟨⟨rfl, rfl⟩, ⟨rfl, rfl⟩, rfl, rfl, rfl, rfl⟩

/-- C9: the Error impl for ErrorKind is the identity, so converting an
already-portable error to its portable kind loses no information and is
idempotent. -/
theorem errorkind_kind_identity :
    (∀ e : ErrorKind, ErrorKind.kind e = e) ∧
    (∀ e : ErrorKind, ErrorKind.kind (ErrorKind.kind e) = ErrorKind.kind e) :=
  ⟨fun _ => rfl, fun _ => rfl⟩

/-- C10: the ErrorType impl for an exclusive borrow associates exactly the
same error type as the underlying implementation. -/
theorem mut_ref_error_type_identity (et : ErrorTypeInst) :
    (refErrorType et).Error = et.Error :=
  rfl

end OneWireHAL
